import Mathlib

/-!
Verification of the deck-assistant core (src/main.py) against its
natural-language specification.  The Python source is shallowly embedded:

* Python `dict`-based card records become the structure `Carte`; every field
  carries the default used by the corresponding `dict.get` call sites
  (`""`, `[]`, `1.0`, `0.0`), so an absent key and the default value coincide.
* Python floats are modelled by `ℚ`.  Every arithmetic expression the claims
  touch is either exact in IEEE double precision (halves, quarters, `n/n`)
  or lands far from a rounding boundary, so exact rational arithmetic agrees
  with the source's floating point on all values the theorems mention; the
  one documented caveat sits at `progression_chargement` below.
* `round` is Python 3's built-in: round-half-to-even (`pythonRound`);
  `int(...)` on a non-negative float truncates (`pyTrunc`).
* The sqlite table `cartes` becomes a list of `LigneBD` rows kept in rowid
  order; `INSERT OR REPLACE` with the `UNIQUE` constraint on `scryfall_id`
  deletes the conflicting row and appends the fresh one.
* Network effects (`requests.get`) are an oracle `Reseau`; the embedded
  client functions additionally return the list of calls they issue.
-/

/-- Python 3 `round` on a rational: round half to even (banker's rounding). -/
def pythonRound (q : ℚ) : ℤ :=
  let f : ℤ := ⌊q⌋
  let reste : ℚ := q - f
  if reste < 1/2 then f
  else if 1/2 < reste then f + 1
  else if f % 2 = 0 then f else f + 1

/-- Python `int(...)` applied to a float: truncation toward zero. -/
def pyTrunc (q : ℚ) : ℤ :=
  if 0 ≤ q then ⌊q⌋ else -⌊-q⌋

/-- `commencePar n h` : the char list `n` starts the char list `h`. -/
def commencePar : List Char → List Char → Bool
  | [], _ => true
  | _ :: _, [] => false
  | a :: n, b :: h => a == b && commencePar n h

/-- `contientListe n h` : `n` occurs contiguously inside `h`. -/
def contientListe : List Char → List Char → Bool
  | n, [] => commencePar n []
  | n, h@(_ :: reste) => commencePar n h || contientListe n reste

/-- Python's `needle in hay` on strings: substring containment. -/
def contientChaine (hay needle : String) : Bool :=
  contientListe needle.data hay.data

/-- Python `set(a).issubset(set(b))` on color-code lists. -/
def sousEnsembleListe (a b : List String) : Bool :=
  a.all (fun x => b.contains x)

/-- ASCII whitespace, as stripped by Python's `str.strip` and `float`
(space, tab, newline, return, vertical tab, form feed). -/
def estEspacePython (c : Char) : Bool :=
  c == ' ' || c == '\t' || c == '\n' || c == '\r' ||
  c == Char.ofNat 11 || c == Char.ofNat 12

/-- Python's `s.strip()`: drop leading and trailing whitespace. -/
def retirer_espaces (s : String) : String :=
  String.mk (((s.data.dropWhile estEspacePython).reverse.dropWhile
    estEspacePython).reverse)

/-- Python's `", ".join(liste)`. -/
def joinStr (sep : String) : List String → String
  | [] => ""
  | [x] => x
  | x :: xs => x ++ sep ++ joinStr sep xs

/-- `CSV_MAPPING` from src/main.py: external column name → internal field. -/
def CSV_MAPPING : List (String × String) :=
  [("Card Name", "nom"),
   ("Set Code", "set_code"),
   ("Set Name", "set_name"),
   ("Collector Number", "collector_number"),
   ("Rarity", "rarity"),
   ("Language", "language"),
   ("Quantity", "quantity"),
   ("Condition", "condition"),
   ("Finish", "finish"),
   ("Altered", "altered"),
   ("Signed", "signed"),
   ("Misprint", "misprint"),
   ("Price (USD)", "price_usd"),
   ("Price (EUR)", "price_eur"),
   ("Price (USD Foil)", "price_usd_foil"),
   ("Price (EUR Foil)", "price_eur_foil"),
   ("Price (USD Etched)", "price_usd_etched"),
   ("Price (EUR Etched)", "price_eur_etched"),
   ("Scryfall ID", "scryfall_id"),
   ("Container Type", "container_type"),
   ("Container Name", "container_name")]

/-- `NUMERIC_FIELDS` from src/main.py. -/
def NUMERIC_FIELDS : List String :=
  ["quantity", "price_usd", "price_eur", "price_usd_foil",
   "price_eur_foil", "price_usd_etched", "price_eur_etched"]

/-- `MAX_SYNERGY_SCORE` from src/main.py. -/
def MAX_SYNERGY_SCORE : ℕ := 6

/-- A card record: the `dict` flowing between the components of src/main.py.
Each field default is the default of the `carte.get(...)` call sites, so a
key missing from the dict and a key holding the default are identified. -/
structure Carte where
  nom : String := ""
  couleur : List String := []
  type : String := ""
  cout_mana : String := ""
  oracle_text_en : String := ""
  oracle_text_fr : String := ""
  scryfall_id : String := ""
  quantity : ℚ := 1
  set_code : String := ""
  set_name : String := ""
  collector_number : String := ""
  rarity : String := ""
  language : String := ""
  condition : String := ""
  finish : String := ""
  altered : String := ""
  signed : String := ""
  misprint : String := ""
  price_usd : ℚ := 0
  price_eur : ℚ := 0
  price_usd_foil : ℚ := 0
  price_eur_foil : ℚ := 0
  price_usd_etched : ℚ := 0
  price_eur_etched : ℚ := 0
  container_type : String := ""
  container_name : String := ""
  deriving DecidableEq, Repr

/-- Raw synergy score of `CalculatriceSynergie.calculer` (src/main.py
lines 376-390): sequential accumulation of the three bonuses. -/
def score_synergie (carte commander : Carte) : ℕ :=
  let score : ℕ := 0
  let score : ℕ := if contientChaine carte.type "Legendary" then score + 3 else score
  let score : ℕ := if carte.couleur.isEmpty then score + 1 else score
  let score : ℕ :=
    if sousEnsembleListe carte.couleur commander.couleur then score + 2 else score
  score

/-- `pourcentage = (score / MAX_SYNERGY_SCORE) * 100` (line 393). -/
def pourcentage_synergie (carte commander : Carte) : ℚ :=
  ((score_synergie carte commander : ℚ) / (MAX_SYNERGY_SCORE : ℚ)) * 100

/-- `MAX_STARS` of `CalculatriceSynergie`. -/
def MAX_STARS : ℕ := 5

/-- `CalculatriceSynergie.calculer` (lines 373-395): star count 0-5.
`nb_etoiles = round((pourcentage / 100) * MAX_STARS)` then clamped. -/
def calculer (carte commander : Carte) : ℤ :=
  let nb_etoiles : ℤ :=
    pythonRound ((pourcentage_synergie carte commander / 100) * (MAX_STARS : ℚ))
  max 0 (min nb_etoiles (MAX_STARS : ℤ))

/-- `GestionnairesCouleurs.filtrer_par_couleurs` (lines 413-429). -/
def filtrer_par_couleurs (collection : List Carte)
    (couleurs_autorisees : List String) : List Carte :=
  if couleurs_autorisees.isEmpty then collection
  else
    collection.filter (fun carte =>
      if carte.couleur.isEmpty then true
      else sousEnsembleListe carte.couleur couleurs_autorisees)

/-- Numeric value of a digit run, most significant first. -/
def valeurChiffres (l : List Char) : ℕ :=
  l.foldl (fun a c => a * 10 + (c.toNat - 48)) 0

/-- Exponent part of a Python float literal: `[sign] digits`, consuming
the whole remainder. -/
def analyserExposant : List Char → Option ℤ
  | [] => none
  | '+' :: r =>
      if r ≠ [] ∧ r.all Char.isDigit then some (valeurChiffres r) else none
  | '-' :: r =>
      if r ≠ [] ∧ r.all Char.isDigit then some (-(valeurChiffres r : ℤ)) else none
  | r =>
      if r ≠ [] ∧ r.all Char.isDigit then some (valeurChiffres r) else none

/-- Unsigned body of a Python float literal:
`digits [. digits] [(e|E) [sign] digits]`, at least one digit before the
exponent.  (Python's `float` also accepts `inf`/`nan` spellings and
underscore digit separators; those are outside this model and parse as
failures here.) -/
def analyserCorpsFlottant (l : List Char) : Option ℚ :=
  let p1 := l.span Char.isDigit
  let ents := p1.1
  let p2 : List Char × List Char :=
    match p1.2 with
    | '.' :: r => r.span Char.isDigit
    | _ => ([], p1.2)
  let fracs := p2.1
  let reste :=
    match p1.2 with
    | '.' :: _ => p2.2
    | _ => p1.2
  let exposant : Option ℤ :=
    match reste with
    | [] => some 0
    | 'e' :: r => analyserExposant r
    | 'E' :: r => analyserExposant r
    | _ => none
  match exposant with
  | none => none
  | some e =>
      if ents = [] ∧ fracs = [] then none
      else
        some ((((valeurChiffres ents : ℚ) +
            (valeurChiffres fracs : ℚ) / (10 : ℚ) ^ fracs.length)) * (10 : ℚ) ^ e)

/-- Python's `float(s)` on a string, as an exact rational: `none` models a
`ValueError`.  Surrounding whitespace is stripped as `float` does. -/
def pythonFloat (s : String) : Option ℚ :=
  match (retirer_espaces s).data with
  | '+' :: r => analyserCorpsFlottant r
  | '-' :: r => (analyserCorpsFlottant r).map (fun q => -q)
  | l => analyserCorpsFlottant l

/-- The numeric coercion of `ChargeurCSV.normaliser_ligne` (lines 338-342):
`float(v) if v else 0.0`, with `ValueError` caught to `0.0`. -/
def champ_numerique (s : String) : ℚ :=
  if s = "" then 0
  else
    match pythonFloat s with
    | some v => v
    | none => 0

/-- One CSV data row, seen as the `DictReader` dict: a total map from
external column name to cell text (valid for validated headers, where every
mapped column is a key). -/
def Ligne : Type := String → String

/-- `ChargeurCSV.normaliser_ligne` (lines 330-344): strip every mapped
value, then coerce the seven `NUMERIC_FIELDS` with `float`-or-`0.0`. -/
def normaliser_ligne (ligne : Ligne) : Carte :=
  { nom := retirer_espaces (ligne "Card Name")
    set_code := retirer_espaces (ligne "Set Code")
    set_name := retirer_espaces (ligne "Set Name")
    collector_number := retirer_espaces (ligne "Collector Number")
    rarity := retirer_espaces (ligne "Rarity")
    language := retirer_espaces (ligne "Language")
    quantity := champ_numerique (retirer_espaces (ligne "Quantity"))
    condition := retirer_espaces (ligne "Condition")
    finish := retirer_espaces (ligne "Finish")
    altered := retirer_espaces (ligne "Altered")
    signed := retirer_espaces (ligne "Signed")
    misprint := retirer_espaces (ligne "Misprint")
    price_usd := champ_numerique (retirer_espaces (ligne "Price (USD)"))
    price_eur := champ_numerique (retirer_espaces (ligne "Price (EUR)"))
    price_usd_foil := champ_numerique (retirer_espaces (ligne "Price (USD Foil)"))
    price_eur_foil := champ_numerique (retirer_espaces (ligne "Price (EUR Foil)"))
    price_usd_etched := champ_numerique (retirer_espaces (ligne "Price (USD Etched)"))
    price_eur_etched := champ_numerique (retirer_espaces (ligne "Price (EUR Etched)"))
    scryfall_id := retirer_espaces (ligne "Scryfall ID")
    container_type := retirer_espaces (ligne "Container Type")
    container_name := retirer_espaces (ligne "Container Name") }

/-- `ChargeurCSV.valider_colonnes` (lines 323-328): the columns of
`CSV_MAPPING` absent from the header, in mapping order. -/
def colonnes_manquantes (fieldnames : List String) : List String :=
  (CSV_MAPPING.map (fun p => p.1)).filter (fun col => !(fieldnames.contains col))

/-- The `ValueError` message of `valider_colonnes`. -/
def message_colonnes_manquantes (manquantes : List String) : String :=
  "Colonnes manquantes : " ++ joinStr ", " manquantes

/-- The load-phase progress values of `ChargeurCSV.charger` (line 362):
`int((idx / len(lignes)) * 100)` for `idx = 1 .. n`.  The source computes
in IEEE doubles; this model is exact-rational.  Truncation, monotonicity
and the endpoints agree between the two; an interior value may sit one
below the exact quotient in the source when the double product falls just
under an integer (e.g. `int(29/100*100) = 28`). -/
def progression_chargement (n : ℕ) : List ℤ :=
  (List.range n).map (fun i : ℕ => pyTrunc ((((i : ℚ) + 1) / (n : ℚ)) * 100))

/-- `ChargeurCSV.charger` (lines 346-364) given the parsed header and data
rows: validate columns, reject an empty row list, then normalise each row.
The second component of the result is the trace of progress-callback
values. -/
def charger (fieldnames : List String) (lignes : List Ligne) :
    Except String (List Carte × List ℤ) :=
  if (colonnes_manquantes fieldnames).isEmpty then
    if lignes.isEmpty then Except.error "Le fichier CSV est vide."
    else
      Except.ok (lignes.map normaliser_ligne, progression_chargement lignes.length)
  else
    Except.error (message_colonnes_manquantes (colonnes_manquantes fieldnames))

/-- A row of the sqlite table `cartes` (columns of `_initialiser_bd`,
lines 103-138, without the surrogate autoincrement key; the list holding
the rows is kept in rowid order).  `couleur` is the serialised JSON text
(`Option` models SQL `NULL`); the write path of src/main.py never stores
`NULL` identifiers, so `scryfall_id` is a plain string, `""` included. -/
structure LigneBD where
  nom : String := ""
  couleur : Option String := none
  type : String := ""
  cout_mana : String := ""
  oracle_text_en : String := ""
  oracle_text_fr : String := ""
  scryfall_id : String := ""
  quantity : ℚ := 1
  set_code : String := ""
  set_name : String := ""
  collector_number : String := ""
  rarity : String := ""
  language : String := ""
  condition : String := ""
  finish : String := ""
  altered : String := ""
  signed : String := ""
  misprint : String := ""
  price_usd : ℚ := 0
  price_eur : ℚ := 0
  price_usd_foil : ℚ := 0
  price_eur_foil : ℚ := 0
  price_usd_etched : ℚ := 0
  price_eur_etched : ℚ := 0
  container_type : String := ""
  container_name : String := ""
  deriving DecidableEq, Repr

/-- Minimal JSON string escaping of `json.dumps` for the color codes the
program serialises (quote and backslash; control characters never occur in
color-identity codes). -/
def echapperJson (s : String) : String :=
  String.mk (s.data.foldr
    (fun c acc => if c == '"' || c == '\\' then '\\' :: c :: acc else c :: acc) [])

/-- `json.dumps(liste)` for a list of strings (default separators). -/
def serialiser_couleur (l : List String) : String :=
  "[" ++ joinStr ", " (l.map (fun s => "\"" ++ echapperJson s ++ "\"")) ++ "]"

/-- The row written for a card by `GestionnaireBD.sauvegarder_cartes`
(lines 140-187): every value is `carte.get(champ, defaut)` and the color
list is serialised with `json.dumps`. -/
def ligne_bd_de_carte (c : Carte) : LigneBD :=
  { nom := c.nom
    couleur := some (serialiser_couleur c.couleur)
    type := c.type
    cout_mana := c.cout_mana
    oracle_text_en := c.oracle_text_en
    oracle_text_fr := c.oracle_text_fr
    scryfall_id := c.scryfall_id
    quantity := c.quantity
    set_code := c.set_code
    set_name := c.set_name
    collector_number := c.collector_number
    rarity := c.rarity
    language := c.language
    condition := c.condition
    finish := c.finish
    altered := c.altered
    signed := c.signed
    misprint := c.misprint
    price_usd := c.price_usd
    price_eur := c.price_eur
    price_usd_foil := c.price_usd_foil
    price_eur_foil := c.price_eur_foil
    price_usd_etched := c.price_usd_etched
    price_eur_etched := c.price_eur_etched
    container_type := c.container_type
    container_name := c.container_name }

/-- One `INSERT OR REPLACE INTO cartes ...` (lines 149-184): on a
`UNIQUE(scryfall_id)` conflict sqlite deletes the conflicting row and
inserts the new one, which takes a fresh rowid, i.e. goes to the end;
without a conflict the filter is the identity and the row is appended. -/
def inserer_ou_remplacer (bd : List LigneBD) (carte : Carte) : List LigneBD :=
  let l := ligne_bd_de_carte carte
  bd.filter (fun r => r.scryfall_id != l.scryfall_id) ++ [l]

/-- `GestionnaireBD.sauvegarder_cartes` (lines 140-187): one
insert-or-replace per card, in batch order. -/
def sauvegarder_cartes (bd : List LigneBD) (cartes : List Carte) : List LigneBD :=
  cartes.foldl inserer_ou_remplacer bd

/-- `GestionnaireBD.get_existing_scryfall_ids` (lines 215-224): the
non-empty stored identifiers (a Python `set`; list membership stands in
for set membership). -/
def get_existing_scryfall_ids (bd : List LigneBD) : List String :=
  (bd.map (fun r => r.scryfall_id)).filter (fun s => s != "")

/-- `GestionnaireBD.augmenter_quantite` (lines 226-234):
`UPDATE cartes SET quantity = quantity + ? WHERE scryfall_id = ?`. -/
def augmenter_quantite (bd : List LigneBD) (scryfall_id : String) (quantite : ℚ) :
    List LigneBD :=
  bd.map (fun r =>
    if r.scryfall_id == scryfall_id then { r with quantity := r.quantity + quantite }
    else r)

/-- The classification loop of `ImportWorker.run` (lines 455-472) when a
store is attached: the existing-identifier set is snapshotted once, then
each card whose non-empty identifier is in the snapshot triggers an
immediate quantity increment, every other card is queued as new. -/
def classifier (bd0 : List LigneBD) (collection : List Carte) :
    List LigneBD × List Carte :=
  let existing_ids := get_existing_scryfall_ids bd0
  collection.foldl
    (fun etat carte =>
      if carte.scryfall_id != "" && existing_ids.contains carte.scryfall_id then
        (augmenter_quantite etat.1 carte.scryfall_id carte.quantity, etat.2)
      else
        (etat.1, etat.2 ++ [carte]))
    (bd0, [])

/-- A JSON value, as produced by Python's `json.loads`. -/
inductive ValeurJson where
  | nul : ValeurJson
  | booleen (b : Bool) : ValeurJson
  | nombre (q : ℚ) : ValeurJson
  | chaine (s : String) : ValeurJson
  | tableau (elems : List ValeurJson) : ValeurJson
  | objet (champs : List (String × ValeurJson)) : ValeurJson
  deriving Repr

/-- JSON whitespace skipping. -/
def sauterEspaces (l : List Char) : List Char :=
  l.dropWhile (fun c => c == ' ' || c == '\t' || c == '\n' || c == '\r')

/-- Hexadecimal digit test for JSON `\u` escapes. -/
def estChiffreHex (c : Char) : Bool :=
  c.isDigit || ('a' ≤ c && c ≤ 'f') || ('A' ≤ c && c ≤ 'F')

/-- Body of a JSON string after the opening quote, with the usual escape
sequences; returns the decoded string and the remainder after the closing
quote. -/
def analyserCorpsChaine (acc : List Char) : List Char → Option (String × List Char)
  | [] => none
  | c :: r =>
    if c == '"' then some (String.mk acc.reverse, r)
    else if c == '\\' then
      match r with
      | [] => none
      | e :: r2 =>
        if e == '"' || e == '\\' || e == '/' then analyserCorpsChaine (e :: acc) r2
        else if e == 'b' then analyserCorpsChaine (Char.ofNat 8 :: acc) r2
        else if e == 'f' then analyserCorpsChaine (Char.ofNat 12 :: acc) r2
        else if e == 'n' then analyserCorpsChaine ('\n' :: acc) r2
        else if e == 'r' then analyserCorpsChaine ('\r' :: acc) r2
        else if e == 't' then analyserCorpsChaine ('\t' :: acc) r2
        else if e == 'u' then
          match r2 with
          | a :: b :: c3 :: d :: r3 =>
            if estChiffreHex a && estChiffreHex b && estChiffreHex c3 && estChiffreHex d then
              analyserCorpsChaine
                (Char.ofNat (valeurHex a * 4096 + valeurHex b * 256 +
                  valeurHex c3 * 16 + valeurHex d) :: acc) r3
            else none
          | _ => none
        else none
    else analyserCorpsChaine (c :: acc) r
where
  valeurHex (c : Char) : ℕ :=
    if c.isDigit then c.toNat - 48
    else if 'a' ≤ c ∧ c ≤ 'f' then c.toNat - 87
    else if 'A' ≤ c ∧ c ≤ 'F' then c.toNat - 55
    else 0

/-- A JSON number as a prefix of the input (permissive about the grammar's
corner cases, strict about leading `+`). -/
def analyserNombreJson (l : List Char) : Option (ℚ × List Char) :=
  let p := l.span (fun c =>
    c.isDigit || c == '.' || c == 'e' || c == 'E' || c == '+' || c == '-')
  match p.1 with
  | [] => none
  | '+' :: _ => none
  | '-' :: r =>
    match analyserCorpsFlottant r with
    | some q => some (-q, p.2)
    | none => none
  | r =>
    match analyserCorpsFlottant r with
    | some q => some (q, p.2)
    | none => none

/-- `retirer pref l`: strip the exact prefix `pref`. -/
def retirer (pref : List Char) (l : List Char) : Option (List Char) :=
  if commencePar pref l then some (l.drop pref.length) else none

mutual

/-- One JSON value as a prefix of the input (fuel-indexed recursive
descent; the fuel passed by `json_loads` always suffices). -/
def analyserValeurJson : ℕ → List Char → Option (ValeurJson × List Char)
  | 0, _ => none
  | fuel + 1, entree =>
    let l := sauterEspaces entree
    match retirer "null".data l with
    | some r => some (.nul, r)
    | none =>
    match retirer "true".data l with
    | some r => some (.booleen true, r)
    | none =>
    match retirer "false".data l with
    | some r => some (.booleen false, r)
    | none =>
    match l with
    | [] => none
    | c :: r =>
      if c == '"' then
        match analyserCorpsChaine [] r with
        | some (s, reste) => some (.chaine s, reste)
        | none => none
      else if c == '[' then
        match sauterEspaces r with
        | ']' :: reste => some (.tableau [], reste)
        | _ =>
          match analyserElements fuel r with
          | some (els, reste) => some (.tableau els, reste)
          | none => none
      else if c == Char.ofNat 123 then
        match sauterEspaces r with
        | x :: reste =>
          if x == Char.ofNat 125 then some (.objet [], reste)
          else
            match analyserMembres fuel r with
            | some (ms, r2) => some (.objet ms, r2)
            | none => none
        | [] => none
      else
        match analyserNombreJson l with
        | some (q, reste) => some (.nombre q, reste)
        | none => none

/-- Comma-separated JSON array elements up to the closing bracket. -/
def analyserElements : ℕ → List Char → Option (List ValeurJson × List Char)
  | 0, _ => none
  | fuel + 1, l =>
    match analyserValeurJson fuel l with
    | none => none
    | some (v, reste) =>
      match sauterEspaces reste with
      | ']' :: r2 => some ([v], r2)
      | ',' :: r2 =>
        match analyserElements fuel r2 with
        | some (vs, r3) => some (v :: vs, r3)
        | none => none
      | _ => none

/-- Comma-separated JSON object members up to the closing brace. -/
def analyserMembres : ℕ → List Char → Option (List (String × ValeurJson) × List Char)
  | 0, _ => none
  | fuel + 1, l =>
    match sauterEspaces l with
    | [] => none
    | c :: r =>
      if c == '"' then
        match analyserCorpsChaine [] r with
        | none => none
        | some (cle, reste) =>
          match sauterEspaces reste with
          | ':' :: r2 =>
            match analyserValeurJson fuel r2 with
            | none => none
            | some (v, r3) =>
              match sauterEspaces r3 with
              | [] => none
              | x :: r4 =>
                if x == Char.ofNat 125 then some ([(cle, v)], r4)
                else if x == ',' then
                  match analyserMembres fuel r4 with
                  | some (ms, r5) => some ((cle, v) :: ms, r5)
                  | none => none
                else none
          | _ => none
      else none

end

/-- Python's `json.loads`: one JSON value spanning the whole input
(`none` models a raised `JSONDecodeError`). -/
def json_loads (s : String) : Option ValeurJson :=
  match analyserValeurJson (2 * s.data.length + 2) s.data with
  | some (v, reste) => if (sauterEspaces reste).isEmpty then some v else none
  | none => none

/-- The color decoding of `GestionnaireBD.charger_toutes_cartes`
(lines 199-203): `json.loads` on the stored text, with `JSONDecodeError`
(invalid text) and `TypeError` (a non-string field, e.g. SQL `NULL`)
caught and replaced by `[]`. -/
def decoder_couleur (stocke : Option String) : ValeurJson :=
  match stocke with
  | none => ValeurJson.tableau []
  | some s =>
    match json_loads s with
    | some v => v
    | none => ValeurJson.tableau []

/-- `GestionnaireBD.charger_toutes_cartes` (lines 189-206): every stored
row, paired with its decoded `couleur` value (the dict returned by the
source is the row with `couleur` overwritten by the decoded value). -/
def charger_toutes_cartes (bd : List LigneBD) : List (LigneBD × ValeurJson) :=
  bd.map (fun r => (r, decoder_couleur r.couleur))

/-- A catalog lookup request of `ClientScryfall` (lines 262-280). -/
inductive RequeteCatalogue where
  | parId (scryfall_id : String) : RequeteCatalogue
  | parNomFuzzy (nom : String) : RequeteCatalogue
  deriving DecidableEq, Repr

/-- One HTTP call issued by the client (the per-record trace). -/
inductive Appel where
  | catalogue (r : RequeteCatalogue) : Appel
  | impressions (uri : String) : Appel
  deriving DecidableEq, Repr

/-- The card attributes the client reads from a catalog response body with
`data.get(champ, defaut)`; each default is the call site's default. -/
structure DonneesScry where
  id : String := ""
  color_identity : List String := []
  type_line : String := ""
  mana_cost : String := ""
  oracle_text : String := ""
  prints_search_uri : String := ""
  deriving DecidableEq, Repr

/-- One printing in the `prints_search_uri` sub-resource (`lang` and
`oracle_text` of each entry of `data`). -/
structure Impression where
  lang : String := ""
  oracle_text : String := ""
  deriving DecidableEq, Repr

/-- A catalog HTTP response: status code and parsed body.  `corps = none`
models a falsy (empty) JSON body, so that `if data:` can be decided. -/
structure ReponseCatalogue where
  status : ℕ
  corps : Option DonneesScry
  deriving Repr

/-- A printings HTTP response: status code and the `data` entry list. -/
structure ReponseImpressions where
  status : ℕ
  corps : List Impression
  deriving Repr

/-- The network, as an oracle: what each request would return; `none`
models a raised `requests` exception (timeout, transport error, bad
JSON). -/
structure Reseau where
  catalogue : RequeteCatalogue → Option ReponseCatalogue
  impressions : String → Option ReponseImpressions

/-- `ClientScryfall.par_id` (lines 272-280): the parsed body on a 200
response, the empty dict (`none`) on any other status or on an exception.
The second component is the trace of HTTP calls made. -/
def par_id (res : Reseau) (scryfall_id : String) :
    Option DonneesScry × List Appel :=
  (match res.catalogue (.parId scryfall_id) with
   | some r => if r.status = 200 then r.corps else none
   | none => none,
   [.catalogue (.parId scryfall_id)])

/-- `ClientScryfall.par_nom_fuzzy` (lines 262-270). -/
def par_nom_fuzzy (res : Reseau) (nom : String) :
    Option DonneesScry × List Appel :=
  (match res.catalogue (.parNomFuzzy nom) with
   | some r => if r.status = 200 then r.corps else none
   | none => none,
   [.catalogue (.parNomFuzzy nom)])

/-- `ClientScryfall._extraire_oracle_text_fr` (lines 282-296): if the body
carries a truthy `prints_search_uri`, fetch it and return the
`oracle_text` of the first printing whose `lang` is `"fr"` with a truthy
text; every failure path degrades to `""`.  (`_oracle_en` is the source's
unused second parameter.) -/
def extraire_oracle_text_fr (res : Reseau) (data : DonneesScry)
    (_oracle_en : String) : String × List Appel :=
  if data.prints_search_uri != "" then
    (match res.impressions data.prints_search_uri with
     | some r =>
       if r.status = 200 then
         match r.corps.find? (fun p => p.lang == "fr" && p.oracle_text != "") with
         | some p => p.oracle_text
         | none => ""
       else ""
     | none => "",
     [.impressions data.prints_search_uri])
  else ("", [])

/-- The single catalog lookup of `ClientScryfall.enrichir_carte`
(lines 301-304): by identifier when the record's `scryfall_id` is truthy,
by fuzzy name otherwise. -/
def resultat_lookup (res : Reseau) (carte : Carte) :
    Option DonneesScry × List Appel :=
  if carte.scryfall_id != "" then par_id res carte.scryfall_id
  else par_nom_fuzzy res carte.nom

/-- `ClientScryfall.enrichir_carte` (lines 298-317): on a truthy lookup
result overwrite the catalog-derived fields (the in-place `update` becomes
a functional update), otherwise return the record untouched. -/
def enrichir_carte (res : Reseau) (carte : Carte) : Carte × List Appel :=
  let lk := resultat_lookup res carte
  match lk.1 with
  | none => (carte, lk.2)
  | some data =>
    let oracle_en := data.oracle_text
    let fr := extraire_oracle_text_fr res data oracle_en
    ({ carte with
        scryfall_id := data.id
        couleur := data.color_identity
        type := data.type_line
        cout_mana := data.mana_cost
        oracle_text_en := oracle_en
        oracle_text_fr := fr.1 },
     lk.2 ++ fr.2)

/-- Whether a call is a catalog lookup (as opposed to a printings
sub-resource fetch). -/
def estCatalogue : Appel → Bool
  | .catalogue _ => true
  | .impressions _ => false

/-- The post-load phase of `ImportWorker.run` (lines 453-484) with a store
attached: classify against the snapshot of stored identifiers (bumping
quantities in place), then enrich only the new cards, which are emitted. -/
def worker_import_run (res : Reseau) (bd : List LigneBD)
    (collection : List Carte) : List LigneBD × List Carte :=
  let cl := classifier bd collection
  (cl.1, cl.2.map (fun carte => (enrichir_carte res carte).1))

/-- `s` occurs contiguously inside `msg` (used to state that an error
message names a column). -/
def contientSousChaine (msg s : String) : Prop :=
  ∃ avant apres, msg.data = avant ++ s.data ++ apres

/-- A full header: every external column of `CSV_MAPPING`, in order. -/
def entetes_completes : List String :=
  CSV_MAPPING.map (fun p => p.1)

/-- A data row with every cell empty. -/
def ligne_vide : Ligne := fun _ => ""

/-- A stored `couleur` cell is malformed in the sense of claim C10: SQL
`NULL` (a non-string, so `json.loads` raises `TypeError`) or text that is
not valid JSON (`json.loads` raises `JSONDecodeError`). -/
def couleur_malformee : Option String → Prop
  | none => True
  | some s => json_loads s = none

/-- A network on which every request fails (used as a concrete oracle). -/
def reseau_indisponible : Reseau :=
  { catalogue := fun _ => none, impressions := fun _ => none }

/-! ## Helper lemmas -/

theorem sousEnsembleListe_iff (a b : List String) :
    sousEnsembleListe a b = true ↔ ∀ x ∈ a, x ∈ b := by
  simp [sousEnsembleListe]

theorem score_synergie_decompose (carte commander : Carte) :
    score_synergie carte commander =
      (if contientChaine carte.type "Legendary" then 3 else 0) +
      (if carte.couleur.isEmpty then 1 else 0) +
      (if sousEnsembleListe carte.couleur commander.couleur then 2 else 0) := by
  simp only [score_synergie]
  split_ifs <;> omega

/-! ## Claim C1 -/

/-- Claim C1, counterexample: a colorless, non-legendary card against a
colorless commander receives 2 stars from `calculer`, not the 3 the claim
states (Python's `round` maps the exact half 2.5 to the even integer 2). -/
theorem etoiles_carte_incolore_pas_trois :
    calculer { type := "Artifact" } { nom := "Karn" } = 2 ∧
    ¬ calculer { type := "Artifact" } { nom := "Karn" } = 3 := by
  have hs : score_synergie { type := "Artifact" } { nom := "Karn" } = 3 := by rfl
  have hp : pourcentage_synergie { type := "Artifact" } { nom := "Karn" } = 50 := by
    rw [pourcentage_synergie, hs]; norm_num [MAX_SYNERGY_SCORE]
  have hc : calculer { type := "Artifact" } { nom := "Karn" } = 2 := by
    simp only [calculer, hp]
    norm_num [pythonRound, MAX_STARS]
  exact ⟨hc, by rw [hc]; decide⟩

/-- Claim C1 (amended): for every commander — a colorless one included — a
card with empty color-identity whose type-line does not contain
"Legendary" reaches an internal percentage of exactly 50, but the scorer
returns 2 stars, not 3: Python 3's `round` is round-half-to-even, so
`round(2.5) = 2`. -/
theorem etoiles_carte_incolore_non_legendaire (carte commander : Carte)
    (hcoul : carte.couleur = [])
    (hleg : contientChaine carte.type "Legendary" = false) :
    pourcentage_synergie carte commander = 50 ∧ calculer carte commander = 2 := by
  have hs : score_synergie carte commander = 3 := by
    rw [score_synergie_decompose, hleg, hcoul]
    simp [sousEnsembleListe]
  have hp : pourcentage_synergie carte commander = 50 := by
    rw [pourcentage_synergie, hs]; norm_num [MAX_SYNERGY_SCORE]
  refine ⟨hp, ?_⟩
  simp only [calculer, hp]
  norm_num [pythonRound, MAX_STARS]

/-- Claim C1, witness at a concrete colorless, non-legendary card and a
concrete colorless commander. -/
theorem etoiles_carte_incolore_non_legendaire_temoin :
    pourcentage_synergie { nom := "Sol Ring", type := "Artifact" } { nom := "Karn" } = 50 ∧
    calculer { nom := "Sol Ring", type := "Artifact" } { nom := "Karn" } = 2 :=
  etoiles_carte_incolore_non_legendaire
    { nom := "Sol Ring", type := "Artifact" } { nom := "Karn" } rfl rfl

/-! ## Claim C2 -/

/-- Claim C2: the raw synergy score is the sum of 3 (type-line contains
"Legendary"), 1 (empty color-identity) and 2 (color-identity a subset of
the commander's), at most 6; the returned star count is
`round((raw/6*100)/100 * 5)` — Python's round-half-to-even — clamped to
[0, 5], hence always between 0 and 5. -/
theorem score_et_etoiles_formule (carte commander : Carte) :
    score_synergie carte commander =
      (if contientChaine carte.type "Legendary" then 3 else 0) +
      (if carte.couleur.isEmpty then 1 else 0) +
      (if sousEnsembleListe carte.couleur commander.couleur then 2 else 0) ∧
    score_synergie carte commander ≤ 6 ∧
    calculer carte commander =
      max 0 (min (pythonRound
        ((((score_synergie carte commander : ℚ) / 6 * 100) / 100) * 5)) 5) ∧
    0 ≤ calculer carte commander ∧ calculer carte commander ≤ 5 := by
  refine ⟨score_synergie_decompose carte commander, ?_, ?_, ?_, ?_⟩
  · rw [score_synergie_decompose]; split_ifs <;> omega
  · simp only [calculer, pourcentage_synergie, MAX_SYNERGY_SCORE, MAX_STARS]
    norm_num
  · simp only [calculer]; exact le_max_left 0 _
  · simp only [calculer, MAX_STARS]
    exact max_le (by norm_num) (le_trans (min_le_right _ _) (by norm_num))

/-! ## Claim C3 -/

/-- Claim C3: with an empty allowed color set the filter returns its input
unchanged; otherwise it is the order-preserving filter keeping exactly the
cards whose color-identity is empty or a subset of the allowed colors, and
it never returns a card with a non-empty, non-subset color-identity. -/
theorem filtrage_par_couleurs_correct (collection : List Carte)
    (couleurs : List String) :
    (couleurs = [] → filtrer_par_couleurs collection couleurs = collection) ∧
    (filtrer_par_couleurs collection couleurs).Sublist collection ∧
    (couleurs ≠ [] → ∀ carte,
      carte ∈ filtrer_par_couleurs collection couleurs ↔
        carte ∈ collection ∧
          (carte.couleur = [] ∨ ∀ x ∈ carte.couleur, x ∈ couleurs)) ∧
    (couleurs ≠ [] → ∀ carte ∈ filtrer_par_couleurs collection couleurs,
      ¬(carte.couleur ≠ [] ∧ ¬ ∀ x ∈ carte.couleur, x ∈ couleurs)) := by
  refine ⟨?_, ?_, ?_, ?_⟩
  · intro h; simp [filtrer_par_couleurs, h]
  · by_cases h : couleurs.isEmpty
    · simp [filtrer_par_couleurs, h]
    · simp only [filtrer_par_couleurs, h, if_neg]
      exact List.filter_sublist collection
  · intro h carte
    have hne : couleurs.isEmpty = false := by
      cases couleurs with
      | nil => exact absurd rfl h
      | cons x xs => rfl
    simp only [filtrer_par_couleurs, hne, Bool.false_eq_true, if_false,
      List.mem_filter]
    constructor
    · rintro ⟨hm, hp⟩
      refine ⟨hm, ?_⟩
      by_cases hv : carte.couleur.isEmpty
      · exact Or.inl (List.isEmpty_iff.mp hv)
      · right
        rw [if_neg (by simp [hv])] at hp
        exact (sousEnsembleListe_iff _ _).mp hp
    · rintro ⟨hm, hv | hv⟩
      · exact ⟨hm, by simp [hv]⟩
      · refine ⟨hm, ?_⟩
        by_cases he : carte.couleur.isEmpty
        · simp [he]
        · rw [if_neg (by simp [he])]
          exact (sousEnsembleListe_iff _ _).mpr hv
  · intro h carte hm
    have hne : couleurs.isEmpty = false := by
      cases couleurs with
      | nil => exact absurd rfl h
      | cons x xs => rfl
    simp only [filtrer_par_couleurs, hne, Bool.false_eq_true, if_false,
      List.mem_filter] at hm
    rintro ⟨hc, hsub⟩
    rcases hm with ⟨-, hp⟩
    rw [if_neg (by simpa using hc)] at hp
    exact hsub ((sousEnsembleListe_iff _ _).mp hp)

/-- Claim C3, witness: a concrete collection and allowed set, with the
empty-allowed case and the membership characterisation instantiated. -/
theorem filtrage_par_couleurs_correct_temoin :
    (filtrer_par_couleurs [{ nom := "a", couleur := ["U"] }] [] =
      [{ nom := "a", couleur := ["U"] }]) ∧
    ({ nom := "a", couleur := ["U"] } ∈
        filtrer_par_couleurs [{ nom := "a", couleur := ["U"] }] ["W"] ↔
      { nom := "a", couleur := ["U"] } ∈ [({ nom := "a", couleur := ["U"] } : Carte)] ∧
        (({ nom := "a", couleur := ["U"] } : Carte).couleur = [] ∨
          ∀ x ∈ ({ nom := "a", couleur := ["U"] } : Carte).couleur, x ∈ ["W"])) :=
  ⟨(filtrage_par_couleurs_correct [{ nom := "a", couleur := ["U"] }] []).1 rfl,
   (filtrage_par_couleurs_correct [{ nom := "a", couleur := ["U"] }] ["W"]).2.2.1
     (by decide) { nom := "a", couleur := ["U"] }⟩

/-! ## Claim C4 -/

theorem donnees_append (a b : String) : (a ++ b).data = a.data ++ b.data := rfl

theorem joinStr_contient (sep : String) (l : List String) (s : String)
    (h : s ∈ l) :
    ∃ avant apres, (joinStr sep l).data = avant ++ s.data ++ apres := by
  induction l with
  | nil => cases h
  | cons x xs ih =>
    cases h with
    | head =>
      cases xs with
      | nil => exact ⟨[], [], by simp [joinStr]⟩
      | cons y ys =>
        exact ⟨[], sep.data ++ (joinStr sep (y :: ys)).data,
          by simp [joinStr, donnees_append]⟩
    | tail _ hx =>
      cases xs with
      | nil => cases hx
      | cons y ys =>
        obtain ⟨p, q, hp⟩ := ih hx
        refine ⟨x.data ++ sep.data ++ p, q, ?_⟩
        simp [joinStr, donnees_append, hp]

/-- Claim C4 (amended: the fixed column mapping has 21 entries, not 20):
whenever at least one required column is absent from the header, `charger`
fails with the schema error whose message names every missing column, and
the outcome is the same for every data-row list — no row is processed. -/
theorem chargement_colonnes_manquantes (fieldnames : List String)
    (lignes : List Ligne) (h : colonnes_manquantes fieldnames ≠ []) :
    charger fieldnames lignes =
      Except.error (message_colonnes_manquantes (colonnes_manquantes fieldnames)) ∧
    (∀ col ∈ colonnes_manquantes fieldnames,
      contientSousChaine
        (message_colonnes_manquantes (colonnes_manquantes fieldnames)) col) ∧
    (∀ lignes2, charger fieldnames lignes = charger fieldnames lignes2) := by
  have herr : ∀ l2 : List Ligne, charger fieldnames l2 =
      Except.error (message_colonnes_manquantes (colonnes_manquantes fieldnames)) := by
    intro l2
    cases hcm : colonnes_manquantes fieldnames with
    | nil => exact absurd hcm h
    | cons a l => simp [charger, hcm]
  refine ⟨herr lignes, ?_, fun l2 => (herr lignes).trans (herr l2).symm⟩
  intro col hcol
  obtain ⟨p, q, hp⟩ := joinStr_contient ", " (colonnes_manquantes fieldnames) col hcol
  exact ⟨"Colonnes manquantes : ".data ++ p, q,
    by simp [message_colonnes_manquantes, donnees_append, hp]⟩

/-- Claim C4, witness: a header holding only "Card Name"; the error names
the missing column "Set Code" (among the rest). -/
theorem chargement_colonnes_manquantes_temoin :
    charger ["Card Name"] [ligne_vide] =
      Except.error (message_colonnes_manquantes (colonnes_manquantes ["Card Name"])) ∧
    contientSousChaine
      (message_colonnes_manquantes (colonnes_manquantes ["Card Name"])) "Set Code" :=
  ⟨(chargement_colonnes_manquantes ["Card Name"] [ligne_vide]
      (by simp [colonnes_manquantes, CSV_MAPPING])).1,
   (chargement_colonnes_manquantes ["Card Name"] [ligne_vide]
      (by simp [colonnes_manquantes, CSV_MAPPING])).2.1 "Set Code"
      (by simp [colonnes_manquantes, CSV_MAPPING])⟩

/-- Claim C4, counterexample to the stated column count: the fixed
external-name → internal-field mapping has 21 required columns, not 20. -/
theorem nombre_colonnes_pas_vingt :
    entetes_completes.length = 21 ∧ ¬ entetes_completes.length = 20 :=
  ⟨rfl, by decide⟩

/-! ## Claim C5 -/

/-- Claim C5: normalisation coerces each of the seven designated numeric
fields from the stripped cell text with `champ_numerique`, which is a
total function returning `0.0` on an empty cell and `0.0` on any text the
float parser rejects — the `ValueError` is always caught, so the coercion
never raises. -/
theorem coercition_numerique_totale (ligne : Ligne) :
    ((normaliser_ligne ligne).quantity =
        champ_numerique (retirer_espaces (ligne "Quantity")) ∧
      (normaliser_ligne ligne).price_usd =
        champ_numerique (retirer_espaces (ligne "Price (USD)")) ∧
      (normaliser_ligne ligne).price_eur =
        champ_numerique (retirer_espaces (ligne "Price (EUR)")) ∧
      (normaliser_ligne ligne).price_usd_foil =
        champ_numerique (retirer_espaces (ligne "Price (USD Foil)")) ∧
      (normaliser_ligne ligne).price_eur_foil =
        champ_numerique (retirer_espaces (ligne "Price (EUR Foil)")) ∧
      (normaliser_ligne ligne).price_usd_etched =
        champ_numerique (retirer_espaces (ligne "Price (USD Etched)")) ∧
      (normaliser_ligne ligne).price_eur_etched =
        champ_numerique (retirer_espaces (ligne "Price (EUR Etched)"))) ∧
    (∀ s : String, pythonFloat s = none → champ_numerique s = 0) ∧
    champ_numerique "" = 0 := by
  refine ⟨⟨rfl, rfl, rfl, rfl, rfl, rfl, rfl⟩, ?_, rfl⟩
  intro s h
  simp [champ_numerique, h]

/-- Claim C5, witness: the all-empty row, and the unparsable cell "abc". -/
theorem coercition_numerique_totale_temoin :
    (normaliser_ligne ligne_vide).quantity =
      champ_numerique (retirer_espaces (ligne_vide "Quantity")) ∧
    champ_numerique "abc" = 0 :=
  ⟨(coercition_numerique_totale ligne_vide).1.1,
   (coercition_numerique_totale ligne_vide).2.1 "abc" rfl⟩

/-! ## Claim C6 -/

theorem pyTrunc_monotone_nonneg (a b : ℚ) (ha : 0 ≤ a) (hab : a ≤ b) :
    pyTrunc a ≤ pyTrunc b := by
  rw [pyTrunc, pyTrunc, if_pos ha, if_pos (le_trans ha hab)]
  exact Int.floor_le_floor hab

theorem progression_chargement_croissante (n : ℕ) :
    List.Pairwise (· ≤ ·) (progression_chargement n) := by
  rw [progression_chargement, List.pairwise_iff_getElem]
  intro a b ha hb hab
  simp only [List.getElem_map, List.getElem_range, List.length_map,
    List.length_range] at ha hb ⊢
  refine pyTrunc_monotone_nonneg _ _ (by positivity) ?_
  rcases Nat.eq_zero_or_pos n with hn | hn
  · simp [hn]
  · have hnq : (0 : ℚ) < n := by exact_mod_cast hn
    have h1 : ((a : ℚ) + 1) ≤ ((b : ℚ) + 1) := by
      have : (a : ℚ) ≤ b := by exact_mod_cast Nat.le_of_lt hab
      linarith
    have h2 : ((a : ℚ) + 1) / n ≤ ((b : ℚ) + 1) / n :=
      (div_le_div_iff_of_pos_right hnq).mpr h1
    exact mul_le_mul_of_nonneg_right h2 (by norm_num)

theorem progression_chargement_derniere (n : ℕ) (h : 1 ≤ n) :
    (progression_chargement n).getLast? = some 100 := by
  obtain ⟨m, rfl⟩ : ∃ m, n = m + 1 := ⟨n - 1, by omega⟩
  rw [progression_chargement, List.range_succ, List.map_append,
    List.map_cons, List.map_nil, List.getLast?_concat]
  have hne : ((m : ℚ) + 1) ≠ 0 := by positivity
  have harg : (((m : ℚ) + 1) / ((m + 1 : ℕ) : ℚ)) * 100 = 100 := by
    push_cast
    rw [div_self hne]
    norm_num
  rw [harg]
  norm_num [pyTrunc]

theorem progression_trois : progression_chargement 3 = [33, 66, 100] := by
  rw [progression_chargement, show List.range 3 = [0, 1, 2] from rfl]
  simp only [List.map_cons, List.map_nil, pyTrunc]
  norm_num

/-- Claim C6 (amended: the per-row value is `int((idx/total)*100)` — a
truncation, not `round`): on a valid, non-empty input the loader reports
one progress value per row; the sequence is monotonically non-decreasing
and its final value is 100; each value is the truncated percentage. -/
theorem progression_monotone_finale :
    (∀ (fieldnames : List String) (lignes : List Ligne),
      colonnes_manquantes fieldnames = [] → lignes ≠ [] →
      charger fieldnames lignes =
        Except.ok (lignes.map normaliser_ligne,
          progression_chargement lignes.length)) ∧
    (∀ n : ℕ, (progression_chargement n).length = n) ∧
    (∀ n : ℕ, List.Pairwise (· ≤ ·) (progression_chargement n)) ∧
    (∀ n : ℕ, 1 ≤ n → (progression_chargement n).getLast? = some 100) ∧
    (∀ n i : ℕ, i < n → (progression_chargement n)[i]? =
      some (pyTrunc ((((i : ℚ) + 1) / (n : ℚ)) * 100))) := by
  refine ⟨?_, ?_, progression_chargement_croissante,
    progression_chargement_derniere, ?_⟩
  · intro fieldnames lignes hcol hne
    have he : lignes.isEmpty = false := by
      cases lignes with
      | nil => exact absurd rfl hne
      | cons a l => rfl
    simp [charger, hcol, he]
  · intro n
    simp [progression_chargement]
  · intro n i h
    simp [progression_chargement, List.getElem?_map, List.getElem?_range, h]

/-- Claim C6, witness: a complete header with two empty rows. -/
theorem progression_monotone_finale_temoin :
    charger entetes_completes [ligne_vide, ligne_vide] =
      Except.ok ([normaliser_ligne ligne_vide, normaliser_ligne ligne_vide],
        progression_chargement 2) ∧
    (progression_chargement 2).getLast? = some 100 :=
  ⟨progression_monotone_finale.1 entetes_completes [ligne_vide, ligne_vide]
      rfl (by simp),
   progression_monotone_finale.2.2.2.1 2 (by norm_num)⟩

/-- Claim C6, counterexample to the stated `round` formula: at row 2 of 3
the loader reports `int((2/3)*100) = 66`, while `round((2/3)*100) = 67`. -/
theorem progression_pas_arrondie :
    (progression_chargement 3)[1]? = some 66 ∧
    pythonRound ((2 : ℚ) / 3 * 100) = 67 ∧ ¬ ((66 : ℤ) = 67) := by
  refine ⟨by rw [progression_trois]; rfl, ?_, by decide⟩
  have hf : ⌊(2 : ℚ) / 3 * 100⌋ = 66 := by
    rw [show (2:ℚ)/3*100 = 200/3 by norm_num, Int.floor_eq_iff]; norm_num
  rw [pythonRound]
  rw [hf]
  norm_num

/-! ## Claim C7 -/

theorem inserer_nouvelle (bd : List LigneBD) (carte : Carte)
    (h : ∀ r ∈ bd, r.scryfall_id ≠ carte.scryfall_id) :
    inserer_ou_remplacer bd carte = bd ++ [ligne_bd_de_carte carte] := by
  rw [inserer_ou_remplacer]
  congr 1
  apply List.filter_eq_self.mpr
  intro r hr
  simpa [ligne_bd_de_carte] using h r hr

theorem inserer_pairwise (bd : List LigneBD) (carte : Carte)
    (h : List.Pairwise (fun a b : LigneBD => a.scryfall_id ≠ b.scryfall_id) bd) :
    List.Pairwise (fun a b : LigneBD => a.scryfall_id ≠ b.scryfall_id)
      (inserer_ou_remplacer bd carte) := by
  rw [inserer_ou_remplacer, List.pairwise_append]
  refine ⟨h.sublist (List.filter_sublist bd), by simp, ?_⟩
  intro a ha b hb
  rcases List.mem_filter.mp ha with ⟨-, hp⟩
  rcases List.mem_singleton.mp hb with rfl
  simpa [ligne_bd_de_carte] using hp

theorem sauvegarder_pairwise (cartes : List Carte) :
    ∀ bd : List LigneBD,
      List.Pairwise (fun a b : LigneBD => a.scryfall_id ≠ b.scryfall_id) bd →
      List.Pairwise (fun a b : LigneBD => a.scryfall_id ≠ b.scryfall_id)
        (sauvegarder_cartes bd cartes) := by
  induction cartes with
  | nil => intro bd h; exact h
  | cons c cs ih =>
    intro bd h
    rw [sauvegarder_cartes, List.foldl_cons]
    exact ih _ (inserer_pairwise bd c h)

/-- Claim C7, counterexample: two records with an empty identifier saved
into an empty store leave one row, not two — the second replaces the
first because sqlite's `UNIQUE` treats `'' = ''` as a conflict and
`INSERT OR REPLACE` resolves it by replacement, so empty-identifier
records are not "always inserted as new rows". -/
theorem sauvegarde_id_vide_remplace :
    (sauvegarder_cartes [] [{ nom := "a" }, { nom := "b" }]).length = 1 ∧
    ¬ (sauvegarder_cartes [] [{ nom := "a" }, { nom := "b" }]).length = 2 := by
  have h : (sauvegarder_cartes [] [{ nom := "a" }, { nom := "b" }]).length = 1 := rfl
  exact ⟨h, by rw [h]; decide⟩

/-- Claim C7 (amended): a record whose identifier (empty string included)
matches no stored row is appended as a new row; saving preserves
identifier-uniqueness (never a second row per identifier); and a record
whose identifier already exists replaces the stored row — the saved
batch's row is the only row left under that identifier, so the attempt is
absorbed by replacement rather than ignored. -/
theorem sauvegarde_remplacement_unicite :
    (∀ (bd : List LigneBD) (carte : Carte),
      (∀ r ∈ bd, r.scryfall_id ≠ carte.scryfall_id) →
      sauvegarder_cartes bd [carte] = bd ++ [ligne_bd_de_carte carte]) ∧
    (∀ (bd : List LigneBD) (cartes : List Carte),
      List.Pairwise (fun a b : LigneBD => a.scryfall_id ≠ b.scryfall_id) bd →
      List.Pairwise (fun a b : LigneBD => a.scryfall_id ≠ b.scryfall_id)
        (sauvegarder_cartes bd cartes)) ∧
    (∀ (bd : List LigneBD) (carte : Carte) (r : LigneBD),
      r ∈ inserer_ou_remplacer bd carte →
      r.scryfall_id = carte.scryfall_id → r = ligne_bd_de_carte carte) := by
  refine ⟨?_, ?_, ?_⟩
  · intro bd carte h
    rw [sauvegarder_cartes, List.foldl_cons, List.foldl_nil]
    exact inserer_nouvelle bd carte h
  · intro bd cartes h
    exact sauvegarder_pairwise cartes bd h
  · intro bd carte r hr hid
    rcases List.mem_append.mp hr with hm | hm
    · rcases List.mem_filter.mp hm with ⟨-, hp⟩
      exact absurd hid (by simpa [ligne_bd_de_carte] using hp)
    · exact List.mem_singleton.mp hm

/-- Claim C7, witness: a fresh record is appended into the empty store;
saving a same-identifier record over a one-row store keeps identifiers
unique. -/
theorem sauvegarde_remplacement_unicite_temoin :
    sauvegarder_cartes [] [{ nom := "a" }] = [ligne_bd_de_carte { nom := "a" }] ∧
    List.Pairwise (fun a b : LigneBD => a.scryfall_id ≠ b.scryfall_id)
      (sauvegarder_cartes [ligne_bd_de_carte { nom := "a", scryfall_id := "x" }]
        [{ nom := "b", scryfall_id := "x" }]) :=
  ⟨sauvegarde_remplacement_unicite.1 [] { nom := "a" } (by simp),
   sauvegarde_remplacement_unicite.2.1
     [ligne_bd_de_carte { nom := "a", scryfall_id := "x" }]
     [{ nom := "b", scryfall_id := "x" }] (by simp)⟩

/-! ## Claim C8 -/

theorem boucle_classification_absente (existing : List String) (c : Carte)
    (hc : (c.scryfall_id != "" && existing.contains c.scryfall_id) = true) :
    ∀ (coll : List Carte) (st : List LigneBD × List Carte), c ∉ st.2 →
      c ∉ (List.foldl (fun (etat : List LigneBD × List Carte) carte =>
        if carte.scryfall_id != "" && existing.contains carte.scryfall_id then
          (augmenter_quantite etat.1 carte.scryfall_id carte.quantity, etat.2)
        else (etat.1, etat.2 ++ [carte])) st coll).2 := by
  intro coll
  induction coll with
  | nil => intro st h; simpa using h
  | cons k ks ih =>
    intro st h
    rw [List.foldl_cons]
    apply ih
    by_cases hk : (k.scryfall_id != "" && existing.contains k.scryfall_id) = true
    · rw [if_pos hk]; exact h
    · rw [if_neg hk]
      simp only [List.mem_append, List.mem_singleton]
      rintro (hmem | rfl)
      · exact h hmem
      · exact hk hc

/-- Claim C8: a record whose non-empty identifier is already stored is
consumed during classification — its quantity is added to the stored row
and it is not queued for enrichment or emission; two successive imports
of an "abc-123", quantity-1 row against a store holding "abc-123" with
quantity 3 leave a single stored row of quantity 5 and emit nothing. -/
theorem classification_doublons_quantites :
    (∀ (bd : List LigneBD) (coll : List Carte) (c : Carte), c ∈ coll →
      c.scryfall_id ≠ "" → c.scryfall_id ∈ get_existing_scryfall_ids bd →
      c ∉ (classifier bd coll).2) ∧
    (∀ (res : Reseau) (bd : List LigneBD) (c : Carte),
      c.scryfall_id ≠ "" → c.scryfall_id ∈ get_existing_scryfall_ids bd →
      worker_import_run res bd [c] =
        (augmenter_quantite bd c.scryfall_id c.quantity, [])) ∧
    ((classifier [({ scryfall_id := "abc-123", quantity := 3 } : LigneBD)]
        [({ scryfall_id := "abc-123", quantity := 1 } : Carte)]).2 = [] ∧
      (classifier
        (classifier [({ scryfall_id := "abc-123", quantity := 3 } : LigneBD)]
          [({ scryfall_id := "abc-123", quantity := 1 } : Carte)]).1
        [({ scryfall_id := "abc-123", quantity := 1 } : Carte)]).2 = [] ∧
      (classifier
        (classifier [({ scryfall_id := "abc-123", quantity := 3 } : LigneBD)]
          [({ scryfall_id := "abc-123", quantity := 1 } : Carte)]).1
        [({ scryfall_id := "abc-123", quantity := 1 } : Carte)]).1 =
        [({ scryfall_id := "abc-123", quantity := 5 } : LigneBD)] ∧
      ((classifier
        (classifier [({ scryfall_id := "abc-123", quantity := 3 } : LigneBD)]
          [({ scryfall_id := "abc-123", quantity := 1 } : Carte)]).1
        [({ scryfall_id := "abc-123", quantity := 1 } : Carte)]).1.filter
          (fun r => r.scryfall_id == "abc-123")).length = 1) := by
  refine ⟨?_, ?_, ?_⟩
  · intro bd coll c hmem hne hex
    have hb : (c.scryfall_id != "" && (get_existing_scryfall_ids bd).contains
        c.scryfall_id) = true := by simp [hne, hex]
    simp only [classifier]
    exact boucle_classification_absente (get_existing_scryfall_ids bd) c hb
      coll (bd, []) (by simp)
  · intro res bd c hne hex
    have hb : (c.scryfall_id != "" && (get_existing_scryfall_ids bd).contains
        c.scryfall_id) = true := by simp [hne, hex]
    simp [worker_import_run, classifier, hb, hne, hex]
  · refine ⟨?_, ?_, ?_, ?_⟩ <;>
      · simp [classifier, get_existing_scryfall_ids, augmenter_quantite]
        try norm_num

/-- Claim C8, witness: the matched record is not emitted, and a one-record
batch against a store holding its identifier reduces to the quantity
increment. -/
theorem classification_doublons_quantites_temoin :
    ({ scryfall_id := "abc-123", quantity := 1 } : Carte) ∉
      (classifier [({ scryfall_id := "abc-123", quantity := 3 } : LigneBD)]
        [({ scryfall_id := "abc-123", quantity := 1 } : Carte)]).2 ∧
    worker_import_run reseau_indisponible
      [({ scryfall_id := "abc-123", quantity := 3 } : LigneBD)]
      [({ scryfall_id := "abc-123", quantity := 1 } : Carte)] =
      (augmenter_quantite [({ scryfall_id := "abc-123", quantity := 3 } : LigneBD)]
        "abc-123" 1, []) :=
  ⟨classification_doublons_quantites.1
      [({ scryfall_id := "abc-123", quantity := 3 } : LigneBD)]
      [({ scryfall_id := "abc-123", quantity := 1 } : Carte)]
      ({ scryfall_id := "abc-123", quantity := 1 } : Carte)
      (by simp) (by simp) (by simp [get_existing_scryfall_ids]),
   classification_doublons_quantites.2.1 reseau_indisponible
      [({ scryfall_id := "abc-123", quantity := 3 } : LigneBD)]
      ({ scryfall_id := "abc-123", quantity := 1 } : Carte)
      (by simp) (by simp [get_existing_scryfall_ids])⟩

/-! ## Claim C9 -/

theorem resultat_lookup_trace (res : Reseau) (carte : Carte) :
    (resultat_lookup res carte).2 =
      [Appel.catalogue (if carte.scryfall_id ≠ "" then
        RequeteCatalogue.parId carte.scryfall_id
      else RequeteCatalogue.parNomFuzzy carte.nom)] := by
  rw [resultat_lookup]
  by_cases h : carte.scryfall_id = ""
  · simp [h, par_nom_fuzzy]
  · simp [h, par_id]

theorem extraire_trace_sans_catalogue (res : Reseau) (data : DonneesScry)
    (o : String) :
    (extraire_oracle_text_fr res data o).2.filter estCatalogue = [] := by
  rw [extraire_oracle_text_fr]
  by_cases h : data.prints_search_uri = ""
  · simp [h]
  · simp [h, estCatalogue]

/-- Claim C9: enrichment issues exactly one catalog lookup per record —
the first call, by identifier when the record's identifier is non-empty,
by fuzzy name otherwise — and when that lookup fails (exception or
non-200 response, both yielding the empty result) the record is returned
with all its fields untouched and the trace holds only that one call. -/
theorem enrichissement_un_seul_appel :
    (∀ (res : Reseau) (carte : Carte),
      ((enrichir_carte res carte).2.filter estCatalogue).length = 1) ∧
    (∀ (res : Reseau) (carte : Carte),
      (enrichir_carte res carte).2.head? = some (Appel.catalogue
        (if carte.scryfall_id ≠ "" then RequeteCatalogue.parId carte.scryfall_id
         else RequeteCatalogue.parNomFuzzy carte.nom))) ∧
    (∀ (res : Reseau) (carte : Carte),
      (resultat_lookup res carte).1 = none →
      enrichir_carte res carte = (carte, (resultat_lookup res carte).2)) := by
  refine ⟨?_, ?_, ?_⟩
  · intro res carte
    rcases h : (resultat_lookup res carte).1 with _ | d
    · simp [enrichir_carte, h, resultat_lookup_trace, estCatalogue]
    · simp [enrichir_carte, h, List.filter_append, resultat_lookup_trace,
        extraire_trace_sans_catalogue, estCatalogue]
  · intro res carte
    rcases h : (resultat_lookup res carte).1 with _ | d
    · simp [enrichir_carte, h, resultat_lookup_trace]
    · simp [enrichir_carte, h, resultat_lookup_trace]
  · intro res carte h
    simp [enrichir_carte, h]

/-- Claim C9, witness: on a network where every call fails, a record with
no identifier triggers exactly one (fuzzy-name) lookup and passes through
unchanged. -/
theorem enrichissement_un_seul_appel_temoin :
    ((enrichir_carte reseau_indisponible { nom := "Sol Ring" }).2.filter
      estCatalogue).length = 1 ∧
    enrichir_carte reseau_indisponible { nom := "Sol Ring" } =
      ({ nom := "Sol Ring" },
       (resultat_lookup reseau_indisponible { nom := "Sol Ring" }).2) :=
  ⟨enrichissement_un_seul_appel.1 reseau_indisponible { nom := "Sol Ring" },
   enrichissement_un_seul_appel.2.2 reseau_indisponible { nom := "Sol Ring" } rfl⟩

/-! ## Claim C10 -/

/-- Claim C10: reloading never fails — every stored row yields a record —
and a row whose stored color text is malformed (SQL `NULL`, i.e. a
non-string, or invalid JSON) is returned with the empty color list. -/
theorem chargement_couleur_corrompue (bd : List LigneBD) :
    (charger_toutes_cartes bd).length = bd.length ∧
    (∀ r ∈ bd, couleur_malformee r.couleur →
      decoder_couleur r.couleur = ValeurJson.tableau [] ∧
      (r, ValeurJson.tableau []) ∈ charger_toutes_cartes bd) := by
  constructor
  · simp [charger_toutes_cartes]
  · intro r hr hm
    have hd : decoder_couleur r.couleur = ValeurJson.tableau [] := by
      cases hc : r.couleur with
      | none => rfl
      | some s =>
        rw [hc] at hm
        have hj : json_loads s = none := hm
        simp [decoder_couleur, hj]
    exact ⟨hd, by
      rw [charger_toutes_cartes]
      exact List.mem_map.mpr ⟨r, hr, by rw [hd]⟩⟩

/-- Claim C10, witness: a store with one row whose color text "xx" is not
valid JSON reloads fully, with the empty color list for that row. -/
theorem chargement_couleur_corrompue_temoin :
    (charger_toutes_cartes [({ couleur := some "xx" } : LigneBD)]).length = 1 ∧
    decoder_couleur (({ couleur := some "xx" } : LigneBD)).couleur =
      ValeurJson.tableau [] :=
  ⟨(chargement_couleur_corrompue [({ couleur := some "xx" } : LigneBD)]).1,
   ((chargement_couleur_corrompue [({ couleur := some "xx" } : LigneBD)]).2
      ({ couleur := some "xx" } : LigneBD) (by simp) rfl).1⟩
